import Mathlib

/-!
Verification of the keyword-scoring / thresholding ESG classifier.

The core of the repository is:
- `label_esg` in label.py: maps a total score to a rating via the fixed
  breakpoints 200 and 600;
- `extract_features` and the module-level dict `ESG_KEYWORDS` in
  dataset_create.py: lower-cases the text once and sums, per category, the
  number of non-overlapping substring occurrences of each keyword
  (Python `str.count`);
- `predict_with_model` and the instance dict `esg_keywords` in
  tests/prediction_validator.py: the same counting scheme over a different
  keyword list, followed by the same thresholds and a confidence value
  `min(max(scores)/sum(scores), 1.0)` (0.1 when all counts are zero).

Text is embedded as a list of Unicode codepoints (`List Nat`); `sc` converts
a string literal to that form. Python's `str.lower` is embedded for the
ASCII range, which covers every keyword and every literal appearing in the
claims. Python's float arithmetic is embedded as exact rational arithmetic
(`ℚ`): the confidence formula only divides a count by a sum of counts and
compares against the constants 0.1, 1/3 and 1.0.
-/

namespace SBM

/-- Codepoints of a string literal; the embedding of Python text. -/
def sc (s : String) : List Nat := s.data.map Char.toNat

/-- ASCII case folding of a single codepoint, as Python `str.lower` acts on
the ASCII range: `A`..`Z` (65..90) shift by 32, everything else is kept. -/
def lowerCode (n : Nat) : Nat := if 65 ≤ n ∧ n ≤ 90 then n + 32 else n

/-- Embedding of `text.lower()`. -/
def lowerText (t : List Nat) : List Nat := t.map lowerCode

/-- Whether `pat` is an initial segment of `s` (a match at the current
position of the scan). -/
def startsWith : List Nat → List Nat → Bool
  | [], _ => true
  | _ :: _, [] => false
  | p :: ps, c :: cs => p == c && startsWith ps cs

/-- Scan of `countOccs`: walk the text left to right; on a match, count it
and resume after the matched segment, otherwise advance one codepoint.
`fuel` is an upper bound on the number of steps; `fuel = s.length` always
suffices because every step consumes at least one codepoint. -/
def countOccsAux (pat : List Nat) : Nat → List Nat → Nat
  | _, [] => 0
  | 0, _ :: _ => 0
  | fuel + 1, c :: rest =>
    if startsWith pat (c :: rest) then
      1 + countOccsAux pat fuel (List.drop (pat.length - 1) rest)
    else
      countOccsAux pat fuel rest

/-- Embedding of Python `s.count(pat)`: the number of non-overlapping
occurrences of `pat` as a substring of `s`, scanning left to right
(for an empty pattern Python returns `len(s) + 1`). -/
def countOccs (s pat : List Nat) : Nat :=
  if pat = [] then s.length + 1 else countOccsAux pat s.length s

/-- One category's count: `sum(text.count(w) for w in keywords)`. -/
def catCount (kws : List (List Nat)) (t : List Nat) : Nat :=
  (kws.map (fun w => countOccs t w)).sum

/-- The `environment` entry of `ESG_KEYWORDS` in dataset_create.py. -/
def ESG_KEYWORDS_environment : List (List Nat) :=
  [sc "carbon", sc "emission", sc "renewable", sc "energy", sc "waste",
   sc "climate"]

/-- The `social` entry of `ESG_KEYWORDS` in dataset_create.py. -/
def ESG_KEYWORDS_social : List (List Nat) :=
  [sc "job", sc "community", sc "health", sc "education", sc "safety"]

/-- The `governance` entry of `ESG_KEYWORDS` in dataset_create.py. -/
def ESG_KEYWORDS_governance : List (List Nat) :=
  [sc "ethics", sc "compliance", sc "transparency", sc "policy", sc "audit"]

/-- The ScoreVector of the data model: the three per-category counts. -/
structure ScoreVector where
  env_score : Nat
  soc_score : Nat
  gov_score : Nat
deriving DecidableEq, Repr

/-- Derived total of a ScoreVector, as computed in label.py
(`df["total_esg"] = df["env_score"] + df["soc_score"] + df["gov_score"]`). -/
def ScoreVector.total_esg (v : ScoreVector) : Nat :=
  v.env_score + v.soc_score + v.gov_score

/-- Embedding of `extract_features` in dataset_create.py: lower-case the
text once, then count each category's keywords by substring counting. -/
def extract_features (text : List Nat) : ScoreVector :=
  let t := lowerText text
  { env_score := catCount ESG_KEYWORDS_environment t
  , soc_score := catCount ESG_KEYWORDS_social t
  , gov_score := catCount ESG_KEYWORDS_governance t }

/-- The Rating enumeration: Low, Medium, High. -/
inductive Rating where
  | Low
  | Medium
  | High
deriving DecidableEq, Repr

/-- Embedding of `label_esg` in label.py: `score < 200` is Low,
`score < 600` is Medium, anything else is High. The Python function is
applied to integer totals, so the domain is `Int`. -/
def label_esg (score : Int) : Rating :=
  if score < 200 then .Low
  else if score < 600 then .Medium
  else .High

/-- The `environment` entry of `self.esg_keywords` in
tests/prediction_validator.py. -/
def esg_keywords_environment : List (List Nat) :=
  [sc "renewable", sc "solar", sc "carbon", sc "emission", sc "sustainable",
   sc "green", sc "climate", sc "energy", sc "waste", sc "recycling",
   sc "biodiversity", sc "pollution"]

/-- The `social` entry of `self.esg_keywords` in
tests/prediction_validator.py. -/
def esg_keywords_social : List (List Nat) :=
  [sc "community", sc "jobs", sc "employment", sc "health", sc "education",
   sc "safety", sc "diversity", sc "inclusion", sc "human rights",
   sc "workers", sc "training", sc "welfare"]

/-- The `governance` entry of `self.esg_keywords` in
tests/prediction_validator.py. -/
def esg_keywords_governance : List (List Nat) :=
  [sc "transparency", sc "ethics", sc "compliance", sc "accountability",
   sc "board", sc "governance", sc "reporting", sc "audit", sc "integrity",
   sc "policy", sc "oversight"]

/-- Embedding of the confidence computation in `predict_with_model`
(tests/prediction_validator.py): with `scores = [env, soc, gov]`, if
`max(scores) > 0` then `min(max(scores) / sum(scores), 1.0)`, else `0.1`. -/
def confidence (e s g : Nat) : ℚ :=
  let m : Nat := max (max e s) g
  if 0 < m then min ((m : ℚ) / ((e + s + g : Nat) : ℚ)) 1 else 1 / 10

/-- The unclamped dominance ratio `max(scores) / sum(scores)` before the
`min(..., 1.0)` clamp of `predict_with_model`. -/
def rawConfidence (e s g : Nat) : ℚ :=
  ((max (max e s) g : Nat) : ℚ) / ((e + s + g : Nat) : ℚ)

/-- Result record of `predict_with_model`: the three per-category counts,
the derived total, the rating string and the confidence. -/
structure Prediction where
  environment_score : Nat
  social_score : Nat
  governance_score : Nat
  total_esg : Nat
  prediction : Rating
  confidence : ℚ
deriving DecidableEq, Repr

/-- Embedding of `predict_with_model` in tests/prediction_validator.py:
lower-case the text, count each category over `self.esg_keywords`, sum the
counts into `total_esg`, map the total through the 200/600 breakpoints, and
attach the confidence value. -/
def predict_with_model (business_text : List Nat) : Prediction :=
  let t := lowerText business_text
  let e := catCount esg_keywords_environment t
  let s := catCount esg_keywords_social t
  let g := catCount esg_keywords_governance t
  let total := e + s + g
  { environment_score := e
  , social_score := s
  , governance_score := g
  , total_esg := total
  , prediction :=
      if total < 200 then .Low else if total < 600 then .Medium else .High
  , confidence := confidence e s g }

/-- The spec's exposed signature `score_and_classify`, realised in the source
by `predict_with_model`. -/
def score_and_classify (text : List Nat) : Prediction :=
  predict_with_model text

/-- Error taxonomy of the core: lookup of an unknown category. In the source
the category→keywords mapping is the Python dict `ESG_KEYWORDS`
(dataset_create.py), and subscripting it with an unrecognised key raises
(`KeyError`), which the spec names `UnknownCategoryError`. -/
inductive KeywordError where
  | UnknownCategoryError
deriving DecidableEq, Repr

/-- Embedding of `ESG_KEYWORDS[category]` (dataset_create.py): the dict has
exactly the keys "environment", "social" and "governance"; any other key
raises, surfaced here as `Except.error`. -/
def keywords_for (category : String) : Except KeywordError (List (List Nat)) :=
  if category = "environment" then .ok ESG_KEYWORDS_environment
  else if category = "social" then .ok ESG_KEYWORDS_social
  else if category = "governance" then .ok ESG_KEYWORDS_governance
  else .error .UnknownCategoryError

/-! ### Helper lemmas -/

/-- ASCII case folding is idempotent: a folded codepoint is never in the
upper-case range 65..90 again. -/
theorem lowerCode_idem (n : Nat) : lowerCode (lowerCode n) = lowerCode n := by
  simp only [lowerCode]
  split_ifs <;> omega

/-- Lower-casing a text twice is the same as lower-casing it once. -/
theorem lowerText_idem (t : List Nat) : lowerText (lowerText t) = lowerText t := by
  induction t with
  | nil => rfl
  | cons c cs ih =>
    simp only [lowerText, List.map_cons] at ih ⊢
    rw [lowerCode_idem, ih]

/-- A match consumes at least the pattern's length of text. -/
theorem startsWith_length_le (pat s : List Nat) (h : startsWith pat s = true) :
    pat.length ≤ s.length := by
  induction pat generalizing s with
  | nil => simp
  | cons p ps ih =>
    cases s with
    | nil => simp [startsWith] at h
    | cons c cs =>
      simp only [startsWith, Bool.and_eq_true] at h
      simpa using ih cs h.2

/-- The occurrences counted by the scan are pairwise disjoint: they occupy
`count * pat.length` codepoints of the text, which therefore bounds them. -/
theorem countOccsAux_mul_le (pat : List Nat) (hp : pat ≠ []) :
    ∀ fuel s, countOccsAux pat fuel s * pat.length ≤ s.length := by
  have hL : 1 ≤ pat.length := List.length_pos.mpr hp
  intro fuel
  induction fuel with
  | zero => intro s; cases s <;> simp [countOccsAux]
  | succ fuel ih =>
    intro s
    cases s with
    | nil => simp [countOccsAux]
    | cons c rest =>
      simp only [countOccsAux]
      split
      · rename_i hmatch
        have hfit := startsWith_length_le pat (c :: rest) hmatch
        have hrec := ih (List.drop (pat.length - 1) rest)
        rw [List.length_drop] at hrec
        simp only [List.length_cons] at hfit ⊢
        have hmul : (1 + countOccsAux pat fuel (List.drop (pat.length - 1) rest)) *
            pat.length =
            pat.length + countOccsAux pat fuel (List.drop (pat.length - 1) rest) *
              pat.length := by ring
        rw [hmul]
        omega
      · have hrec := ih rest
        simp only [List.length_cons]
        omega

/-- The same bound stated for `countOccs` (Python `s.count(pat)`). -/
theorem countOccs_mul_le (s pat : List Nat) (hp : pat ≠ []) :
    countOccs s pat * pat.length ≤ s.length := by
  rw [countOccs, if_neg hp]
  exact countOccsAux_mul_le pat hp s.length s

/-- Each category count is at most the maximum count. -/
theorem le_maxCount (e s g : Nat) :
    e ≤ max (max e s) g ∧ s ≤ max (max e s) g ∧ g ≤ max (max e s) g :=
  ⟨le_trans (le_max_left e s) (le_max_left _ g),
   le_trans (le_max_right e s) (le_max_left _ g),
   le_max_right _ g⟩

/-- The maximum count is at most the total. -/
theorem maxCount_le_total (e s g : Nat) : max (max e s) g ≤ e + s + g :=
  max_le (max_le (by omega) (by omega)) (by omega)

/-- When all counts are zero the confidence is the fixed constant 0.1. -/
theorem confidence_total_zero (e s g : Nat) (h : e + s + g = 0) :
    confidence e s g = 1 / 10 := by
  have he : e = 0 := by omega
  have hs : s = 0 := by omega
  have hg : g = 0 := by omega
  subst he hs hg
  simp [confidence]

/-- When the total is positive the clamp is inactive and the confidence is
exactly the dominance ratio. -/
theorem confidence_total_pos (e s g : Nat) (h : 0 < e + s + g) :
    confidence e s g = rawConfidence e s g := by
  have hM : max (max e s) g ≤ e + s + g := maxCount_le_total e s g
  have hMe := le_maxCount e s g
  have hMpos : 0 < max (max e s) g := by omega
  have hTpos : (0 : ℚ) < ((e + s + g : Nat) : ℚ) := by exact_mod_cast h
  have hle : ((max (max e s) g : Nat) : ℚ) / ((e + s + g : Nat) : ℚ) ≤ 1 :=
    (div_le_one hTpos).mpr (by exact_mod_cast hM)
  simp only [confidence, rawConfidence, if_pos hMpos]
  exact min_eq_left hle

/-- The dominance ratio of three counts with positive total is at least a
third: the maximum of three values is at least their average. -/
theorem rawConfidence_ge_third (e s g : Nat) (h : 0 < e + s + g) :
    1 / 3 ≤ rawConfidence e s g := by
  have hMe := le_maxCount e s g
  have h3 : e + s + g ≤ max (max e s) g * 3 := by omega
  have hTpos : (0 : ℚ) < ((e + s + g : Nat) : ℚ) := by exact_mod_cast h
  rw [rawConfidence, div_le_div_iff₀ (by norm_num) hTpos, one_mul]
  exact_mod_cast h3

/-- The dominance ratio never exceeds one, clamp or no clamp. -/
theorem rawConfidence_le_one (e s g : Nat) (h : 0 < e + s + g) :
    rawConfidence e s g ≤ 1 := by
  have hM : max (max e s) g ≤ e + s + g := maxCount_le_total e s g
  have hTpos : (0 : ℚ) < ((e + s + g : Nat) : ℚ) := by exact_mod_cast h
  exact (div_le_one hTpos).mpr (by exact_mod_cast hM)

/-! ### Claim theorems -/

/-- C1: `label_esg` maps a total to a Rating by the two fixed breakpoints:
any integer total below 200 yields Low, totals in [200, 600) yield Medium,
totals of 600 or more yield High; in particular 199 yields Low, 200 Medium,
599 Medium and 600 High. -/
theorem label_esg_breakpoints :
    (∀ t : Int, t < 200 → label_esg t = .Low) ∧
    (∀ t : Int, 200 ≤ t → t < 600 → label_esg t = .Medium) ∧
    (∀ t : Int, 600 ≤ t → label_esg t = .High) ∧
    label_esg 199 = .Low ∧ label_esg 200 = .Medium ∧
    label_esg 599 = .Medium ∧ label_esg 600 = .High := by
  refine ⟨?_, ?_, ?_, by decide, by decide, by decide, by decide⟩
  · intro t h
    rw [label_esg, if_pos h]
  · intro t h1 h2
    rw [label_esg, if_neg (by omega), if_pos h2]
  · intro t h
    rw [label_esg, if_neg (by omega), if_neg (by omega)]

/-- Witness for C1: the breakpoint theorem applied at totals 150, 400 and
700. -/
theorem label_esg_breakpoints_witness :
    label_esg 150 = .Low ∧ label_esg 400 = .Medium ∧ label_esg 700 = .High :=
  ⟨label_esg_breakpoints.1 150 (by decide),
   label_esg_breakpoints.2.1 400 (by decide) (by decide),
   label_esg_breakpoints.2.2.1 700 (by decide)⟩

/-- C2: the scorer lower-cases the text once and computes each category's
count as the sum, over the category's keywords, of the non-overlapping
substring occurrence counts; the counted occurrences are genuinely
non-overlapping (they occupy disjoint segments, so
`count * pat.length ≤ s.length`); substring matching is confirmed by the
text "jobseeker jobseeker" with keyword "job", which yields a social count
of 2. -/
theorem scorer_substring_counting :
    (∀ text : List Nat,
      extract_features text =
        { env_score := (ESG_KEYWORDS_environment.map
            (fun w => countOccs (lowerText text) w)).sum
        , soc_score := (ESG_KEYWORDS_social.map
            (fun w => countOccs (lowerText text) w)).sum
        , gov_score := (ESG_KEYWORDS_governance.map
            (fun w => countOccs (lowerText text) w)).sum }) ∧
    (∀ s pat : List Nat, pat ≠ [] → countOccs s pat * pat.length ≤ s.length) ∧
    sc "job" ∈ ESG_KEYWORDS_social ∧
    countOccs (lowerText (sc "jobseeker jobseeker")) (sc "job") = 2 ∧
    (extract_features (sc "jobseeker jobseeker")).soc_score = 2 :=
  ⟨fun _ => rfl, countOccs_mul_le, by decide, by decide, by decide⟩

/-- Witness for C2: the non-overlap bound applied to the concrete text
"jobseeker jobseeker" and the concrete keyword "job". -/
theorem scorer_substring_counting_witness :
    countOccs (sc "jobseeker jobseeker") (sc "job") * (sc "job").length ≤
      (sc "jobseeker jobseeker").length :=
  scorer_substring_counting.2.1 (sc "jobseeker jobseeker") (sc "job")
    (by decide)

/-- C3: the confidence is 0.1 when the total is 0, and otherwise is the
maximum count divided by the total, clamped to at most 1; it always lies in
[0, 1], and a vector with positive environment count and zero social and
governance counts has confidence exactly 1. -/
theorem confidence_spec :
    ∀ e s g : Nat,
      (e + s + g = 0 → confidence e s g = 1 / 10) ∧
      (e + s + g ≠ 0 →
        confidence e s g =
          min (((max (max e s) g : Nat) : ℚ) / ((e + s + g : Nat) : ℚ)) 1) ∧
      0 ≤ confidence e s g ∧ confidence e s g ≤ 1 ∧
      (s = 0 → g = 0 → 0 < e → confidence e s g = 1) := by
  intro e s g
  have hMe := le_maxCount e s g
  refine ⟨confidence_total_zero e s g, ?_, ?_, ?_, ?_⟩
  · intro h
    have hpos : 0 < e + s + g := Nat.pos_of_ne_zero h
    rw [confidence_total_pos e s g hpos, rawConfidence]
    exact (min_eq_left (rawConfidence_le_one e s g hpos)).symm
  · rcases Nat.eq_zero_or_pos (e + s + g) with h | h
    · rw [confidence_total_zero e s g h]; norm_num
    · rw [confidence_total_pos e s g h, rawConfidence]
      positivity
  · rcases Nat.eq_zero_or_pos (e + s + g) with h | h
    · rw [confidence_total_zero e s g h]; norm_num
    · rw [confidence_total_pos e s g h]
      exact rawConfidence_le_one e s g h
  · intro hs hg he
    subst hs hg
    have hpos : 0 < e + 0 + 0 := by omega
    rw [confidence_total_pos e 0 0 hpos, rawConfidence]
    have hmax : max (max e 0) 0 = e := by omega
    have hsum : e + 0 + 0 = e := by omega
    rw [hmax, hsum, div_self (by exact_mod_cast Nat.pos_iff_ne_zero.mp he)]

/-- Witness for C3: the confidence theorem applied at the all-zero vector
and at the vector (3, 0, 0). -/
theorem confidence_spec_witness :
    confidence 0 0 0 = 1 / 10 ∧ confidence 3 0 0 = 1 :=
  ⟨(confidence_spec 0 0 0).1 (by decide),
   (confidence_spec 3 0 0).2.2.2.2 rfl rfl (by decide)⟩

/-- C4: scoring the empty string yields the all-zero ScoreVector with total
0, rating Low and confidence 0.1; and for any text in which no keyword of
any category occurs, the result degrades to that same all-zero outcome (the
function is total, so no input raises). -/
theorem empty_input_graceful :
    score_and_classify (sc "") =
      { environment_score := 0, social_score := 0, governance_score := 0
      , total_esg := 0, prediction := .Low, confidence := 1 / 10 } ∧
    ∀ text : List Nat,
      (∀ w ∈ esg_keywords_environment, countOccs (lowerText text) w = 0) →
      (∀ w ∈ esg_keywords_social, countOccs (lowerText text) w = 0) →
      (∀ w ∈ esg_keywords_governance, countOccs (lowerText text) w = 0) →
      score_and_classify text =
        { environment_score := 0, social_score := 0, governance_score := 0
        , total_esg := 0, prediction := .Low, confidence := 1 / 10 } := by
  refine ⟨rfl, ?_⟩
  intro text h1 h2 h3
  have he : catCount esg_keywords_environment (lowerText text) = 0 := by
    refine List.sum_eq_zero ?_
    intro x hx
    rcases List.mem_map.mp hx with ⟨w, hw, rfl⟩
    exact h1 w hw
  have hs : catCount esg_keywords_social (lowerText text) = 0 := by
    refine List.sum_eq_zero ?_
    intro x hx
    rcases List.mem_map.mp hx with ⟨w, hw, rfl⟩
    exact h2 w hw
  have hg : catCount esg_keywords_governance (lowerText text) = 0 := by
    refine List.sum_eq_zero ?_
    intro x hx
    rcases List.mem_map.mp hx with ⟨w, hw, rfl⟩
    exact h3 w hw
  simp only [score_and_classify, predict_with_model, he, hs, hg]
  norm_num [confidence]

/-- Witness for C4: the graceful-degradation part applied to the concrete
keyword-free text "xyz". -/
theorem empty_input_graceful_witness :
    score_and_classify (sc "xyz") =
      { environment_score := 0, social_score := 0, governance_score := 0
      , total_esg := 0, prediction := .Low, confidence := 1 / 10 } :=
  empty_input_graceful.2 (sc "xyz") (by decide) (by decide) (by decide)

/-- C5: every ScoreVector the scorer produces satisfies the additivity
invariant: the total equals the sum of the environment, social and
governance counts, for every input text, both for the validator scorer
(`predict_with_model`) and for the dataset scorer (`extract_features`
combined with label.py's `total_esg` column). -/
theorem total_additivity :
    ∀ text : List Nat,
      (predict_with_model text).total_esg =
        (predict_with_model text).environment_score +
          (predict_with_model text).social_score +
          (predict_with_model text).governance_score ∧
      (extract_features text).total_esg =
        (extract_features text).env_score +
          (extract_features text).soc_score +
          (extract_features text).gov_score :=
  fun _ => ⟨rfl, rfl⟩

/-- C6: scoring is case-insensitive: scoring a text and scoring its
lower-cased form yield identical results for both scorers, and in
particular "CARBON" and "carbon" score identically. -/
theorem case_insensitivity :
    (∀ text : List Nat,
      extract_features (lowerText text) = extract_features text) ∧
    (∀ text : List Nat,
      predict_with_model (lowerText text) = predict_with_model text) ∧
    score_and_classify (sc "CARBON") = score_and_classify (sc "carbon") ∧
    extract_features (sc "CARBON") = extract_features (sc "carbon") := by
  refine ⟨?_, ?_, ?_, ?_⟩
  · intro text
    simp only [extract_features, lowerText_idem]
  · intro text
    simp only [predict_with_model, lowerText_idem]
  · rfl
  · rfl

/-- C7: keyword lookup with a category outside the three recognized names
surfaces `UnknownCategoryError` and never silently defaults, while lookup
with a recognized category returns that category's keywords, all of which
are lowercase (fixed points of case folding). -/
theorem keywords_for_spec :
    (∀ category : String, category ≠ "environment" → category ≠ "social" →
      category ≠ "governance" →
      keywords_for category = .error .UnknownCategoryError) ∧
    keywords_for "environment" = .ok ESG_KEYWORDS_environment ∧
    keywords_for "social" = .ok ESG_KEYWORDS_social ∧
    keywords_for "governance" = .ok ESG_KEYWORDS_governance ∧
    ∀ w ∈ ESG_KEYWORDS_environment ++ ESG_KEYWORDS_social ++
        ESG_KEYWORDS_governance, lowerText w = w := by
  refine ⟨?_, rfl, rfl, rfl, by decide⟩
  intro c h1 h2 h3
  rw [keywords_for, if_neg h1, if_neg h2, if_neg h3]

/-- Witness for C7: lookup of the unknown category "price" errors, and the
keyword "carbon" of the environment category is lowercase. -/
theorem keywords_for_spec_witness :
    keywords_for "price" = .error .UnknownCategoryError ∧
    lowerText (sc "carbon") = sc "carbon" :=
  ⟨keywords_for_spec.1 "price" (by decide) (by decide) (by decide),
   keywords_for_spec.2.2.2.2 (sc "carbon") (by decide)⟩

/-- C8: the source defines two different keyword-list variants for the same
three categories: the mapping of dataset_create.py and the mapping of
tests/prediction_validator.py are not equal, and on the concrete text
"solar" the two scorers produce different ScoreVectors. -/
theorem divergent_keyword_lists :
    (ESG_KEYWORDS_environment, ESG_KEYWORDS_social, ESG_KEYWORDS_governance)
      ≠ (esg_keywords_environment, esg_keywords_social,
        esg_keywords_governance) ∧
    ∃ text : List Nat,
      extract_features text ≠
        { env_score := (predict_with_model text).environment_score
        , soc_score := (predict_with_model text).social_score
        , gov_score := (predict_with_model text).governance_score } :=
  ⟨by decide, ⟨sc "solar", by decide⟩⟩

/-- C9: for three non-negative counts with positive total, the dominance
ratio `max / total` is at least one third and at most one even before the
clamp (so the clamp is inactive), and consequently no confidence value the
system produces lies strictly between 0.1 and 1/3. -/
theorem confidence_dominance_gap :
    ∀ e s g : Nat,
      (0 < e + s + g →
        1 / 3 ≤ rawConfidence e s g ∧ rawConfidence e s g ≤ 1 ∧
          confidence e s g = rawConfidence e s g) ∧
      ¬(1 / 10 < confidence e s g ∧ confidence e s g < 1 / 3) := by
  intro e s g
  constructor
  · intro h
    exact ⟨rawConfidence_ge_third e s g h, rawConfidence_le_one e s g h,
      confidence_total_pos e s g h⟩
  · rintro ⟨h1, h2⟩
    rcases Nat.eq_zero_or_pos (e + s + g) with h | h
    · rw [confidence_total_zero e s g h] at h1
      exact absurd h1 (by norm_num)
    · rw [confidence_total_pos e s g h] at h2
      exact absurd (rawConfidence_ge_third e s g h) (by linarith)

/-- Witness for C9: the dominance bounds applied at the vector (1, 1, 1). -/
theorem confidence_dominance_gap_witness :
    1 / 3 ≤ rawConfidence 1 1 1 ∧ rawConfidence 1 1 1 ≤ 1 ∧
      confidence 1 1 1 = rawConfidence 1 1 1 :=
  (confidence_dominance_gap 1 1 1).1 (by decide)

/-- C10: `label_esg` is total over all integers: every input, including
negative numbers, yields exactly one of the three labels (the embedding is
a total function, so it never raises), and every negative input maps to
Low. -/
theorem label_esg_total_on_int :
    ∀ t : Int,
      (label_esg t = .Low ∨ label_esg t = .Medium ∨ label_esg t = .High) ∧
      (t < 0 → label_esg t = .Low) := by
  intro t
  constructor
  · rw [label_esg]
    split_ifs <;> simp
  · intro h
    rw [label_esg, if_pos (by omega)]

/-- Witness for C10: the totality theorem applied at the negative total
-5. -/
theorem label_esg_total_on_int_witness : label_esg (-5) = .Low :=
  (label_esg_total_on_int (-5)).2 (by decide)

end SBM
